import Mathlib

/-!
Verification of `src/manual-testing-sandbox/app.py`, a 33-line Streamlit
dashboard script.  The script is a straight-line sequence of framework calls:
it sets a title, draws a sidebar slider (range 0–100, default 50), echoes the
selected value, builds an N×3 random table with columns "A","B","C", displays
it as a data grid, a line chart and an area chart, and finally shows a button
that triggers `st.experimental_rerun()` when pressed.

The shallow embedding turns one render pass into a pure function from its
inputs — the slider value, the button state, and the random draw — to the
list of events the pass performs, in program order.
-/

namespace Dashboard

/-- The random source of the script: `draw i j` is the cell produced by
`np.random.randn(number, 3)` for row `i`, column `j`.  The pass consumes the
draw as an input; its distribution is irrelevant to the claims. -/
def Draw : Type := Nat → Nat → ℚ

/-- The labeled tabular structure built by `pd.DataFrame(..., columns=[...])`:
a list of column names and a list of rows. -/
structure DataFrame where
  columns : List String
  rows : List (List ℚ)
deriving DecidableEq, Repr

/-- Lines 17–20 of app.py:
`data = pd.DataFrame(np.random.randn(number, 3), columns=['A', 'B', 'C'])` —
an N×3 matrix of draws wrapped with column labels "A", "B", "C". -/
def mkData (number : Nat) (draw : Draw) : DataFrame :=
  { columns := ["A", "B", "C"]
    rows := (List.range number).map (fun i => [draw i 0, draw i 1, draw i 2]) }

/-- One event of a render pass: each constructor is one framework or library
call the script performs, carrying the argument the call receives. -/
inductive Element where
  | title (s : String)
  | sidebarHeader (s : String)
  | sidebarSlider (label : String) (lo hi dflt value : Nat)
  | header (s : String)
  | write (s : String)
  | genData (d : DataFrame)
  | subheader (s : String)
  | dataframe (d : DataFrame)
  | lineChart (d : DataFrame)
  | areaChart (d : DataFrame)
  | button (label : String)
  | rerunCall
deriving DecidableEq, Repr

/-- Line 10 of app.py: the slider's label. -/
def sliderLabel : String := "数値を選択してください"

/-- Line 10 of app.py: the slider's minimum. -/
def sliderLo : Nat := 0

/-- Line 10 of app.py: the slider's maximum. -/
def sliderHi : Nat := 100

/-- Line 10 of app.py: the slider's default. -/
def sliderDflt : Nat := 50

/-- Modelled from the spec: the host framework's slider widget returns the
default value when there has been no interaction, and otherwise the selected
integer, clamped into [min, max] by the widget itself (spec §4.1 and §6; the
widget's implementation is Streamlit's, not part of this repository). -/
def sliderValue (interaction : Option Int) : Nat :=
  match interaction with
  | none => sliderDflt
  | some v => (max (Int.ofNat sliderLo) (min v (Int.ofNat sliderHi))).toNat

/-- Line 14 of app.py: `st.write(f'選択された値: {number}')`. -/
def echoText (number : Nat) : String := "選択された値: " ++ toString number

/-- The render pass of app.py, lines 6–33, as the list of events it performs
in program order.  `number` is the value the slider returned, `pressed` the
value `st.button` returned, `draw` the random matrix drawn on line 18.
`st.experimental_rerun()` on line 33 runs only when the button was pressed. -/
def renderPass (number : Nat) (pressed : Bool) (draw : Draw) : List Element :=
  let data := mkData number draw
  [ Element.title "Databricks Apps上のシンプルなStreamlitアプリ",
    Element.sidebarHeader "パラメータ設定",
    Element.sidebarSlider sliderLabel sliderLo sliderHi sliderDflt number,
    Element.header "サンプルデータ表示",
    Element.write (echoText number),
    Element.genData data,
    Element.subheader "データテーブル",
    Element.dataframe data,
    Element.subheader "ラインチャート",
    Element.lineChart data,
    Element.subheader "エリアチャート",
    Element.areaChart data,
    Element.button "新しいデータを生成" ]
  ++ (if pressed then [Element.rerunCall] else [])

/-- The modified program of the refinement claim: app.py with the
`st.experimental_rerun()` call on line 33 removed and everything else kept,
the button included. -/
def renderPassNoRerun (number : Nat) (_pressed : Bool) (draw : Draw) : List Element :=
  let data := mkData number draw
  [ Element.title "Databricks Apps上のシンプルなStreamlitアプリ",
    Element.sidebarHeader "パラメータ設定",
    Element.sidebarSlider sliderLabel sliderLo sliderHi sliderDflt number,
    Element.header "サンプルデータ表示",
    Element.write (echoText number),
    Element.genData data,
    Element.subheader "データテーブル",
    Element.dataframe data,
    Element.subheader "ラインチャート",
    Element.lineChart data,
    Element.subheader "エリアチャート",
    Element.areaChart data,
    Element.button "新しいデータを生成" ]

/-- Whether an event renders something on the display surface.  `genData` is
the in-process construction of the table and `rerunCall` the framework's
re-execution trigger; neither renders anything. -/
def Element.isDisplay : Element → Bool
  | Element.genData _ => false
  | Element.rerunCall => false
  | _ => true

/-- The displayed part of a trace: the events that render on the page. -/
def displayed (t : List Element) : List Element := t.filter Element.isDisplay

/-- The step of the renderer contract an event belongs to: 1 the title, 2 the
sidebar header and slider, 3 the main header and echo text, 4 the generation
of the table, 5 the data grid (with its caption), 6 the line chart (with its
caption), 7 the area chart (with its caption), 8 the button; the re-run
trigger comes after every step. -/
def stepOf : Element → Nat
  | Element.title _ => 1
  | Element.sidebarHeader _ => 2
  | Element.sidebarSlider _ _ _ _ _ => 2
  | Element.header _ => 3
  | Element.write _ => 3
  | Element.genData _ => 4
  | Element.subheader s =>
      if s = "データテーブル" then 5
      else if s = "ラインチャート" then 6
      else if s = "エリアチャート" then 7
      else 0
  | Element.dataframe _ => 5
  | Element.lineChart _ => 6
  | Element.areaChart _ => 7
  | Element.button _ => 8
  | Element.rerunCall => 9

/-- The kind of side effect a call of the script performs. -/
inductive Effect where
  | displaySurface
  | control
  | compute
  | fileWrite
  | networkCall
  | sessionState
deriving DecidableEq, Repr

/-- Modelled from the spec: the effect of each call the script performs.  The
framework's widget and chart calls write to the display surface only, the
re-run call is a control transfer of the framework, and the construction of
the table is in-process computation; none of the calls touches files, the
network, persistent storage, or the framework's session state (spec §4.1
side effects and §5; the calls' implementations are Streamlit's, pandas's and
numpy's, not part of this repository). -/
def effectOf : Element → Effect
  | Element.genData _ => Effect.compute
  | Element.rerunCall => Effect.control
  | _ => Effect.displaySurface

/-- Modelled from the spec: a run of the script in which any framework or
library call may raise.  The script has no try/except, so the calls run left
to right, each at most once, and the first raising call aborts the whole run
with its error, the remaining calls never executing (spec §7).  `oracle e =
true` means the call producing event `e` raises. -/
def runExc (oracle : Element → Bool) : List Element → Except Element (List Element)
  | [] => Except.ok []
  | e :: es =>
      if oracle e then Except.error e
      else
        match runExc oracle es with
        | Except.ok t => Except.ok (e :: t)
        | Except.error x => Except.error x

/-- A concrete all-zero random draw, used to instantiate theorems. -/
def drawZero : Draw := fun _ _ => 0

/-- A concrete failure oracle: the main-header call raises, every other call
succeeds. -/
def failHeader : Element → Bool :=
  fun x => decide (x = Element.header "サンプルデータ表示")

end Dashboard

namespace Dashboard

/-- A sanity check: the trace of a pass without a press has its 13 statements. -/
theorem renderPass_length (n : Nat) (draw : Draw) :
    (renderPass n false draw).length = 13 := rfl

/-- C1: for every slider value N in [0,100], the table generated in a render
pass has exactly N rows and exactly 3 columns named "A", "B", "C", and the
very same table is the argument of the data-grid, line-chart and area-chart
events of the pass (positions 7, 9 and 11 of the trace). -/
theorem table_shape_and_sharing (n : Nat) (h : n ≤ 100) (p : Bool) (draw : Draw) :
    (mkData n draw).rows.length = n ∧
    (mkData n draw).columns.length = 3 ∧
    (mkData n draw).columns = ["A", "B", "C"] ∧
    (renderPass n p draw).get? 7 = some (Element.dataframe (mkData n draw)) ∧
    (renderPass n p draw).get? 9 = some (Element.lineChart (mkData n draw)) ∧
    (renderPass n p draw).get? 11 = some (Element.areaChart (mkData n draw)) := by
  refine ⟨?_, rfl, rfl, rfl, rfl, rfl⟩
  simp [mkData]

/-- Witness for C1 at the concrete slider value 37. -/
theorem table_shape_and_sharing_witness :
    (mkData 37 (fun _ _ => 0)).rows.length = 37 ∧
    (mkData 37 (fun _ _ => 0)).columns.length = 3 ∧
    (mkData 37 (fun _ _ => 0)).columns = ["A", "B", "C"] ∧
    (renderPass 37 true (fun _ _ => 0)).get? 7 =
      some (Element.dataframe (mkData 37 (fun _ _ => 0))) ∧
    (renderPass 37 true (fun _ _ => 0)).get? 9 =
      some (Element.lineChart (mkData 37 (fun _ _ => 0))) ∧
    (renderPass 37 true (fun _ _ => 0)).get? 11 =
      some (Element.areaChart (mkData 37 (fun _ _ => 0))) :=
  table_shape_and_sharing 37 (by decide) true (fun _ _ => 0)

/-- C2: the slider of line 10 is configured with minimum 0, maximum 100 and
default 50, so with no interaction the selected value is 50 and the generated
table has exactly 50 rows; the slider event of the pass carries exactly those
bounds and that value. -/
theorem initial_state (draw : Draw) :
    sliderLo = 0 ∧ sliderHi = 100 ∧ sliderDflt = 50 ∧
    sliderValue none = 50 ∧
    (mkData (sliderValue none) draw).rows.length = 50 ∧
    (renderPass (sliderValue none) false draw).get? 2 =
      some (Element.sidebarSlider sliderLabel 0 100 50 50) := by
  refine ⟨rfl, rfl, rfl, rfl, ?_, rfl⟩
  simp [mkData, sliderValue, sliderDflt]

/-- C3: for every slider value N in [0,100], the echo text written at position
4 of the trace contains the decimal representation of N exactly. -/
theorem echo_contains_value (n : Nat) (h : n ≤ 100) (p : Bool) (draw : Draw) :
    (renderPass n p draw).get? 4 = some (Element.write (echoText n)) ∧
    ∃ pre post, echoText n = pre ++ (toString n ++ post) := by
  refine ⟨rfl, "選択された値: ", "", ?_⟩
  simp [echoText]

/-- Witness for C3 at the concrete slider value 37. -/
theorem echo_contains_value_witness :
    (renderPass 37 false (fun _ _ => 0)).get? 4 =
      some (Element.write (echoText 37)) ∧
    ∃ pre post, echoText 37 = pre ++ (toString 37 ++ post) :=
  echo_contains_value 37 (by decide) false (fun _ _ => 0)

/-- C4: when the slider value is 0 the pass completes: the generated table has
zero rows and still the 3 columns, and the data-grid, line-chart and
area-chart events are all performed on that empty table, the trace reaching
the button event. -/
theorem zero_rows_renders (p : Bool) (draw : Draw) :
    mkData 0 draw = { columns := ["A", "B", "C"], rows := [] } ∧
    (renderPass 0 p draw).get? 7 = some (Element.dataframe (mkData 0 draw)) ∧
    (renderPass 0 p draw).get? 9 = some (Element.lineChart (mkData 0 draw)) ∧
    (renderPass 0 p draw).get? 11 = some (Element.areaChart (mkData 0 draw)) ∧
    (renderPass 0 p draw).get? 12 = some (Element.button "新しいデータを生成") :=
  ⟨rfl, rfl, rfl, rfl, rfl⟩

/-- C5: on every invocation the steps of the pass happen in the contract's
order — the step indices along the trace are non-decreasing — and every one
of the eight steps does happen. -/
theorem steps_in_order (n : Nat) (p : Bool) (draw : Draw) :
    ((renderPass n p draw).map stepOf).Sorted (· ≤ ·) ∧
    1 ∈ (renderPass n p draw).map stepOf ∧
    2 ∈ (renderPass n p draw).map stepOf ∧
    3 ∈ (renderPass n p draw).map stepOf ∧
    4 ∈ (renderPass n p draw).map stepOf ∧
    5 ∈ (renderPass n p draw).map stepOf ∧
    6 ∈ (renderPass n p draw).map stepOf ∧
    7 ∈ (renderPass n p draw).map stepOf ∧
    8 ∈ (renderPass n p draw).map stepOf := by
  have hm : (renderPass n p draw).map stepOf =
      [1, 2, 2, 3, 3, 4, 5, 5, 6, 6, 7, 7, 8] ++ (if p then [9] else []) := by
    cases p <;> rfl
  rw [hm]
  cases p <;> exact by decide

/-- C6: removing the `st.experimental_rerun()` call changes no displayed
element: for every slider value, button state and draw, the pass of the
original script and the pass of the script without the call render the same
sequence of elements, the original trace being the modified one followed by
the (non-rendering) re-run trigger exactly when the button was pressed. -/
theorem rerun_removal_preserves_display (n : Nat) (p : Bool) (draw : Draw) :
    displayed (renderPass n p draw) = displayed (renderPassNoRerun n p draw) ∧
    renderPass n p draw =
      renderPassNoRerun n p draw ++ (if p then [Element.rerunCall] else []) := by
  cases p <;> exact ⟨rfl, rfl⟩

/-- Helper: when every call of a trace succeeds, the run performs them all. -/
theorem runExc_ok (oracle : Element → Bool) (t : List Element)
    (h : ∀ e ∈ t, oracle e = false) : runExc oracle t = Except.ok t := by
  induction t with
  | nil => rfl
  | cons a t ih =>
      simp [runExc, h a (List.mem_cons_self a t),
        ih (fun e he => h e (List.mem_cons_of_mem a he))]

/-- Helper: the first raising call aborts the run with its own error. -/
theorem runExc_error (oracle : Element → Bool) (pre : List Element)
    (e : Element) (post : List Element)
    (hpre : ∀ x ∈ pre, oracle x = false) (he : oracle e = true) :
    runExc oracle (pre ++ e :: post) = Except.error e := by
  induction pre with
  | nil => simp [runExc, he]
  | cons a t ih =>
      simp [List.cons_append, runExc, hpre a (List.mem_cons_self a t),
        ih (fun x hx => hpre x (List.mem_cons_of_mem a hx))]

/-- C7: no call's failure is caught.  If every call of the pass succeeds the
run performs the whole trace; if some call raises while every call before it
succeeds, the run aborts with exactly that error, which propagates out of the
pass, and no later call runs. -/
theorem unhandled_failure_propagates (n : Nat) (p : Bool) (draw : Draw)
    (oracle : Element → Bool) :
    ((∀ e ∈ renderPass n p draw, oracle e = false) →
      runExc oracle (renderPass n p draw) = Except.ok (renderPass n p draw)) ∧
    (∀ pre e post, renderPass n p draw = pre ++ e :: post →
      (∀ x ∈ pre, oracle x = false) → oracle e = true →
      runExc oracle (renderPass n p draw) = Except.error e) := by
  constructor
  · exact runExc_ok oracle (renderPass n p draw)
  · intro pre e post hsplit hpre he
    rw [hsplit]
    exact runExc_error oracle pre e post hpre he

/-- Witness for C7: with the all-zero draw and the oracle on which exactly the
main-header call raises, the run of the pass at slider value 0 aborts with
that call's error. -/
theorem unhandled_failure_propagates_witness :
    runExc failHeader (renderPass 0 false drawZero) =
      Except.error (Element.header "サンプルデータ表示") :=
  (unhandled_failure_propagates 0 false drawZero failHeader).2
    [Element.title "Databricks Apps上のシンプルなStreamlitアプリ",
     Element.sidebarHeader "パラメータ設定",
     Element.sidebarSlider sliderLabel sliderLo sliderHi sliderDflt 0]
    (Element.header "サンプルデータ表示")
    [Element.write (echoText 0),
     Element.genData (mkData 0 drawZero),
     Element.subheader "データテーブル",
     Element.dataframe (mkData 0 drawZero),
     Element.subheader "ラインチャート",
     Element.lineChart (mkData 0 drawZero),
     Element.subheader "エリアチャート",
     Element.areaChart (mkData 0 drawZero),
     Element.button "新しいデータを生成"]
    rfl (by decide) (by decide)

/-- C8: every call of a pass writes to the display surface, or is the
framework's re-run control transfer, or is the in-process construction of the
table; no call touches files, the network, or the framework's session state,
and every rendering call writes to the display surface. -/
theorem display_surface_only (n : Nat) (p : Bool) (draw : Draw)
    (e : Element) (he : e ∈ renderPass n p draw) :
    effectOf e ≠ Effect.fileWrite ∧
    effectOf e ≠ Effect.networkCall ∧
    effectOf e ≠ Effect.sessionState ∧
    (e.isDisplay = true → effectOf e = Effect.displaySurface) := by
  cases e <;> simp [effectOf, Element.isDisplay]

/-- Witness for C8 at the button event of a concrete pass. -/
theorem display_surface_only_witness :
    effectOf (Element.button "新しいデータを生成") ≠ Effect.fileWrite ∧
    effectOf (Element.button "新しいデータを生成") ≠ Effect.networkCall ∧
    effectOf (Element.button "新しいデータを生成") ≠ Effect.sessionState ∧
    ((Element.button "新しいデータを生成").isDisplay = true →
      effectOf (Element.button "新しいデータを生成") = Effect.displaySurface) :=
  display_surface_only 0 false drawZero (Element.button "新しいデータを生成")
    (by decide)

/-- C9: the displayed page is a function of the slider value and the draw
alone — the button state never changes a displayed element, it only decides
whether the re-run trigger fires at the end of the trace. -/
theorem display_independent_of_button (n : Nat) (draw : Draw) (p p' : Bool) :
    displayed (renderPass n p draw) = displayed (renderPass n p' draw) ∧
    (Element.rerunCall ∈ renderPass n p draw ↔ p = true) := by
  constructor
  · cases p <;> cases p' <;> rfl
  · cases p <;> simp [renderPass]

/-- C10: the re-run trigger is the last event of a pass: on a pass with the
button pressed the trace is the full rerun-free trace followed by the
trigger, the trigger occurs nowhere earlier, never occurs without a press,
and the title, slider, echo text, table, both charts and the button have all
been displayed before it. -/
theorem rerun_is_final (n : Nat) (draw : Draw) :
    renderPass n true draw = renderPassNoRerun n true draw ++ [Element.rerunCall] ∧
    Element.rerunCall ∉ renderPassNoRerun n true draw ∧
    Element.rerunCall ∉ renderPass n false draw ∧
    Element.title "Databricks Apps上のシンプルなStreamlitアプリ"
      ∈ renderPassNoRerun n true draw ∧
    Element.sidebarSlider sliderLabel sliderLo sliderHi sliderDflt n
      ∈ renderPassNoRerun n true draw ∧
    Element.write (echoText n) ∈ renderPassNoRerun n true draw ∧
    Element.dataframe (mkData n draw) ∈ renderPassNoRerun n true draw ∧
    Element.lineChart (mkData n draw) ∈ renderPassNoRerun n true draw ∧
    Element.areaChart (mkData n draw) ∈ renderPassNoRerun n true draw ∧
    Element.button "新しいデータを生成" ∈ renderPassNoRerun n true draw := by
  refine ⟨rfl, ?_, ?_, ?_, ?_, ?_, ?_, ?_, ?_, ?_⟩ <;>
    simp [renderPass, renderPassNoRerun]

end Dashboard
